import Mathlib

/-!
Verification of the polebot repository's votemap subsystems against its
natural-language specification.

The Lean definitions below are a shallow embedding of the Python source:

* `backoff`                          — src/polebot/utils.py, `backoff`
* `process_exception_*`, `_connect`  — src/polebot/log_stream_client.py
* `sendInitMessage`                  — `CRCONLogStreamClient._send_init_message`
* `handleIncomingMessage`            — `CRCONLogStreamClient._handle_incoming_message`
* processor state operations         — src/polebot/services/votemap_processor.py and
                                       src/polebot/services/server_controller.py
* the map selector                   — src/app/map_selector/selector.py and
                                       src/app/map_selector/config_loader.py

Numeric values that are Python floats are modelled as rationals; none of the
properties proved here depend on floating-point rounding.
-/

namespace Polebot

/-! ### Backoff generator (src/polebot/utils.py, `backoff`)

The Python generator is

```
yield random.random() * initial_delay
attempts += 1
delay = min_delay
while delay < max_delay and (max_attempts == 0 or attempts < max_attempts):
    yield delay; attempts += 1; delay *= factor
while max_attempts == 0 or attempts < max_attempts:
    yield max_delay; attempts += 1
```

`backoffSeq p r n` is the n-th yielded value (`none` once the generator has
terminated); `r` stands for the value returned by `random.random()`, so the
real generator always has `0 ≤ r < 1`.  After the unconditional first yield,
the state is the pair (attempts, delay); `backoffAux` yields the value that is
produced after `n` further loop iterations from that state.  Both `while`
loops guard on the attempt count in the same way, and a step of the first loop
multiplies the delay by `factor` while a step of the second leaves it alone,
which is what the recursion below does.
-/

structure BackoffParams where
  initial_delay : ℚ
  min_delay : ℚ
  max_delay : ℚ
  factor : ℚ
  max_attempts : ℕ
  deriving DecidableEq, Repr

def backoffAux (p : BackoffParams) : ℕ → ℕ → ℚ → Option ℚ
  | 0, attempts, delay =>
      if p.max_attempts ≠ 0 ∧ p.max_attempts ≤ attempts then none
      else if delay < p.max_delay then some delay
      else some p.max_delay
  | n + 1, attempts, delay =>
      if p.max_attempts ≠ 0 ∧ p.max_attempts ≤ attempts then none
      else if delay < p.max_delay then backoffAux p n (attempts + 1) (delay * p.factor)
      else backoffAux p n (attempts + 1) delay

def backoffSeq (p : BackoffParams) (r : ℚ) : ℕ → Option ℚ
  | 0 => some (r * p.initial_delay)
  | n + 1 => backoffAux p n 1 p.min_delay

/-- Default parameters of `backoff` (`initial=5`, `min=3.1`, `max=90`,
`factor=1.618`, unlimited attempts), as rationals. -/
def backoffDefaultParams : BackoffParams :=
  { initial_delay := 5, min_delay := 31/10, max_delay := 90, factor := 809/500, max_attempts := 0 }

/-- Parameters satisfying every constraint that claim C9 states
(`0 ≤ min_delay ≤ max_delay`, `factor ≥ 1`) but with `initial_delay = 0`,
which the claim leaves unconstrained. -/
def backoffZeroInitialParams : BackoffParams :=
  { initial_delay := 0, min_delay := 3, max_delay := 90, factor := 2, max_attempts := 0 }

/-- Claim C9's first conjunct as stated: the first yielded value lies in
`[0, initial_delay)`. -/
def claimC9FirstInRange (p : BackoffParams) (r : ℚ) : Prop :=
  ∀ v, backoffSeq p r 0 = some v → 0 ≤ v ∧ v < p.initial_delay

end Polebot

namespace Polebot

/-! ### Connection-exception classification (src/polebot/log_stream_client.py)

`process_exception_fail_on_dns_error` is translated from the source
(lines 213–231).  `process_exception_standard_rules` is the default
`process_exception` of the third-party `websockets` library
(`websockets.asyncio.client.process_exception`), which the source imports and
uses for every connection attempt after the first; it is reproduced here from
that library's documented behaviour: `EOFError`, `OSError` (which includes
`socket.gaierror`) and `TimeoutError` are retryable, as is an HTTP upgrade
response with status 500, 502, 503 or 504; everything else is fatal.

A classifier returns `none` for "retryable" and `some exc` for "fatal", like
the Python functions return `None` or the exception. -/

/-- The exception kinds distinguished by the two classifiers.  `gaierror` is a
separate constructor even though in Python `socket.gaierror` is a subclass of
`OSError`: the first-connection classifier tests for it before the `OSError`
test, and the standard classifier's `OSError` test deliberately covers it
(both facts are encoded in the two functions below).  `osError` stands for any
other `OSError`. -/
inductive ConnExc where
  | gaierror
  | eofError
  | osError
  | timeoutError
  | invalidStatus (code : ℕ)
  | other
  deriving DecidableEq, Repr

/-- `process_exception_fail_on_dns_error` (log_stream_client.py:213-231). -/
def process_exception_fail_on_dns_error : ConnExc → Option ConnExc
  | .gaierror => some .gaierror
  | .eofError => none
  | .osError => none
  | .timeoutError => none
  | .invalidStatus code =>
      if code = 500 ∨ code = 502 ∨ code = 503 ∨ code = 504 then none
      else some (.invalidStatus code)
  | .other => some .other

/-- The `websockets` library's default `process_exception`, used by `_connect`
for every attempt after the first.  A `socket.gaierror` is an `OSError`, so it
is retryable here. -/
def process_exception_standard_rules : ConnExc → Option ConnExc
  | .gaierror => none
  | .eofError => none
  | .osError => none
  | .timeoutError => none
  | .invalidStatus code =>
      if code = 500 ∨ code = 502 ∨ code = 503 ∨ code = 504 then none
      else some (.invalidStatus code)
  | .other => some .other

/-- One call of `CRCONLogStreamClient._connect` (lines 147-170): given the
current `_first_connection` flag it picks the classifier for this attempt and
returns the new flag value.  The source flips the flag to `False` inside the
`if self._first_connection:` branch; in the other branch the flag is already
`False` and is left alone. -/
def connectPickClassifier (first_connection : Bool) : (ConnExc → Option ConnExc) × Bool :=
  if first_connection then (process_exception_fail_on_dns_error, false)
  else (process_exception_standard_rules, first_connection)

/-- The `_first_connection` flag before the (n+1)-st call of `_connect`;
it is initialised to `True` in `__init__` (line 62). -/
def firstConnectionFlag : ℕ → Bool
  | 0 => true
  | n + 1 => (connectPickClassifier (firstConnectionFlag n)).2

/-- The classifier used by the (n+1)-st call of `_connect`. -/
def classifierAtAttempt (n : ℕ) : ConnExc → Option ConnExc :=
  (connectPickClassifier (firstConnectionFlag n)).1

/-! ### Log stream data model (src/polebot/crcon/api_models.py) -/

/-- `LogMessageType` (api_models.py:15-53).  The Python member `match` is
rendered `match_generic` here because `match` is a Lean keyword; its string
tag is `"MATCH"`. -/
inductive LogMessageType where
  | admin
  | admin_anti_cheat
  | admin_banned
  | admin_idle
  | admin_kicked
  | admin_misc
  | admin_perma_banned
  | allies_chat
  | allies_team_chat
  | allies_unit_chat
  | axis_chat
  | axis_team_chat
  | axis_unit_chat
  | camera
  | chat
  | connected
  | disconnected
  | kill
  | match_generic
  | match_end
  | match_start
  | message
  | team_kill
  | team_switch
  | tk
  | tk_auto
  | tk_auto_banned
  | tk_auto_kicked
  | vote
  | vote_completed
  | vote_expired
  | vote_passed
  | vote_started
  deriving DecidableEq, Repr

/-- `StructuredLogLineWithMetaData` (api_models.py:56-70).  `event_time` is a
UTC datetime in the source, modelled as an integer timestamp;
`relative_time_ms` is an optional float, modelled as an optional rational. -/
structure StructuredLogLineWithMetaData where
  version : ℤ
  timestamp_ms : ℤ
  event_time : ℤ
  relative_time_ms : Option ℚ
  raw : String
  line_without_time : Option String
  action : LogMessageType
  player_name_1 : Option String
  player_id_1 : Option String
  player_name_2 : Option String
  player_id_2 : Option String
  weapon : Option String
  message : String
  sub_content : Option String
  deriving DecidableEq, Repr

/-- `LogStreamObject` (api_models.py:78-81); `id` is an optional stream id. -/
structure LogStreamObject where
  id : Option String
  log : StructuredLogLineWithMetaData
  deriving DecidableEq, Repr

/-- `LogStreamResponse` (api_models.py:84-88). -/
structure LogStreamResponse where
  logs : List LogStreamObject
  last_seen_id : Option String
  error : Option String
  deriving DecidableEq, Repr

/-! ### The init frame (`CRCONLogStreamClient._send_init_message`, lines 172-186)

The Python body builds a `dict` and serialises it with `json.dumps`.  The dict
is modelled as an insertion-ordered association list with Python `dict`
update semantics (an existing key keeps its position and gets the new value).
Python truthiness: `if self.last_seen_id:` is false for `None` and for the
empty string; `if self.log_types:` is false for `None` and for the empty
list. -/

/-- A JSON value that can appear in the init frame. -/
inductive InitValue where
  | str (s : String)
  | actions (l : List LogMessageType)
  | null
  deriving DecidableEq, Repr

/-- Python `dict` assignment `d[k] = v` on an insertion-ordered association
list: overwrite in place if the key exists, else append. -/
def dictSet (d : List (String × InitValue)) (k : String) (v : InitValue) :
    List (String × InitValue) :=
  if d.any (fun p => p.1 = k) then d.map (fun p => if p.1 = k then (k, v) else p)
  else d ++ [(k, v)]

/-- Truthiness of `self.last_seen_id` (an `Optional[str]`). -/
def truthyStr : Option String → Bool
  | none => false
  | some s => s ≠ ""

/-- Truthiness of `self.log_types` (an `Optional[list]`). -/
def truthyList : Option (List LogMessageType) → Bool
  | none => false
  | some l => l ≠ []

/-- The body object of the init frame built by `_send_init_message`:

```
body_obj = {}
if self.last_seen_id:  body_obj["last_seen_id"] = self.last_seen_id
if self.log_types:     body_obj["actions"] = self.log_types
body_obj["last_seen_id"] = self.last_seen_id
```

Note the final unconditional assignment, which puts the `last_seen_id` key in
the frame even when the value is `None`. -/
def sendInitMessage (last_seen_id : Option String)
    (log_types : Option (List LogMessageType)) : List (String × InitValue) :=
  let body₀ : List (String × InitValue) := []
  let body₁ :=
    if truthyStr last_seen_id then
      dictSet body₀ "last_seen_id" (.str (last_seen_id.getD ""))
    else body₀
  let body₂ :=
    if truthyList log_types then
      dictSet body₁ "actions" (.actions (log_types.getD []))
    else body₁
  dictSet body₂ "last_seen_id"
    (match last_seen_id with
     | some s => .str s
     | none => .null)

/-- Claim C7's first conjunct as stated: the init frame includes the
`last_seen_id` key only when a last-seen id from the previous session is
present. -/
def claimC7KeyOnlyWhenPresent (last_seen_id : Option String)
    (log_types : Option (List LogMessageType)) : Prop :=
  (sendInitMessage last_seen_id log_types).any (fun p => p.1 = "last_seen_id") = true →
    last_seen_id.isSome = true

/-! ### Frame handling (`CRCONLogStreamClient._handle_incoming_message`, lines 188-210)

The observable client state is the stored `last_seen_id` cursor and the queue
contents (enqueueing appends at the tail).  The incoming frame has already
been through `json.loads` and `structure`; a decode failure is caught, logged
and swallowed (state unchanged).  A structured `LogStreamResponse` is an attrs
instance and therefore always truthy, so the `if response:` test always
passes.  `if response.error:` is true exactly for a non-`None`, non-empty
error string, in which case `LogStreamMessageError` is raised (and re-raised
past the generic handler) before the cursor is updated or anything is
enqueued. -/

structure LogStreamClientState where
  last_seen_id : Option String
  queue : List LogStreamObject
  deriving DecidableEq, Repr

inductive HandleOutcome where
  | ok
  | raisedLogStreamMessageError (msg : String)
  deriving DecidableEq, Repr

def handleIncomingMessage (st : LogStreamClientState)
    (decoded : Except String LogStreamResponse) : LogStreamClientState × HandleOutcome :=
  match decoded with
  | .error _ => (st, .ok)
  | .ok response =>
      match response.error with
      | some e =>
          if e ≠ "" then (st, .raisedLogStreamMessageError e)
          else ({ last_seen_id := response.last_seen_id,
                  queue := st.queue ++ response.logs }, .ok)
      | none =>
          ({ last_seen_id := response.last_seen_id,
             queue := st.queue ++ response.logs }, .ok)

/-! ### Weighting parameters (src/polebot/models.py:52-71)

`weight` is an `int` in `[0,100]` and `repeat_decay` a `float` in `[0,1]`;
both are modelled as rationals.  The `dict`s keyed by group name are modelled
as ordered association lists. -/

structure MapGroup where
  weight : ℚ
  repeat_decay : ℚ
  maps : List String
  deriving DecidableEq, Repr

structure EnvironmentGroup where
  weight : ℚ
  repeat_decay : ℚ
  environments : List String
  deriving DecidableEq, Repr

structure WeightingParameters where
  groups : List (String × MapGroup)
  environments : List (String × EnvironmentGroup)
  deriving DecidableEq, Repr

/-! ### Votemap processor state (src/polebot/services/votemap_processor.py)

The processor's mutable state relevant to the claims: the `_enabled` flag, the
`_weighting_parameters` reference and the `_layer_history` deque
(`deque(maxlen=10)`, newest at the head, `appendleft` drops from the tail when
full). -/

structure ProcessorState where
  enabled : Bool
  weighting_parameters : Option WeightingParameters
  layer_history : List String
  deriving DecidableEq, Repr

/-- The `enabled` setter (votemap_processor.py:93-97).  `ValueError` is
modelled as `Except.error` carrying the message.  `not self._weighting_parameters`
is true exactly for `None`: an attrs instance is always truthy. -/
def processorSetEnabled (st : ProcessorState) (value : Bool) : Except String ProcessorState :=
  if value = true ∧ st.weighting_parameters = none then
    .error "Cannot enable votemap processor without configuring weighting parameters"
  else .ok { st with enabled := value }

/-- The `weighting_params` setter (votemap_processor.py:103-107):
`if not value: self.enabled = False` — which goes through the `enabled`
setter, and assigning `False` there never raises — then the field is
assigned. -/
def processorSetWeightingParams (st : ProcessorState)
    (value : Option WeightingParameters) : ProcessorState :=
  let st₁ := if value = none then { st with enabled := false } else st
  { st₁ with weighting_parameters := value }

/-- `ServerController.votemap_enabled` setter (server_controller.py:68-70),
which delegates to the processor's `enabled` setter. -/
def controllerSetVotemapEnabled (st : ProcessorState) (value : Bool) :
    Except String ProcessorState :=
  processorSetEnabled st value

/-- `ServerController.weighting_parameters` setter (server_controller.py:76-78):
`self._votemap_processor._weighting_parameters = value` — a direct write to the
processor's private field that bypasses the `weighting_params` property
setter, so the `enabled` flag is left untouched. -/
def controllerSetWeightingParameters (st : ProcessorState)
    (value : Option WeightingParameters) : ProcessorState :=
  { st with weighting_parameters := value }

/-- The enable invariant: `enabled` implies the weighting parameters are
non-null. -/
def processorInvariant (st : ProcessorState) : Prop :=
  st.enabled = true → st.weighting_parameters ≠ none

/-! ### The message dispatch loop
(`VotemapProcessor._receive_and_process_message`, lines 113-143, and
`_process_map_ended`, lines 153-158)

After dequeuing a message the body first tests `if not self.enabled:` and
returns (after a 1-second sleep) without dispatching; only when enabled does
it match on `log.log.action`.  `match_end` refreshes the server status and
prepends `status.map.id` to the history deque.  `statusMapId` stands for the
`map.id` of the `ServerStatus` the (cached) `get_status` call returns. -/

inductive ProcessOutcome where
  | sleptDisabled
  | dispatchedMatchStart
  | prependedHistory
  | warnedUnsupported
  deriving DecidableEq, Repr

def receiveAndProcessMessage (st : ProcessorState) (action : LogMessageType)
    (statusMapId : String) : ProcessorState × ProcessOutcome :=
  if st.enabled = false then (st, .sleptDisabled)
  else
    match action with
    | .match_start => (st, .dispatchedMatchStart)
    | .match_end =>
        ({ st with layer_history := (statusMapId :: st.layer_history).take 10 },
         .prependedHistory)
    | _ => (st, .warnedUnsupported)

/-! ### The whitelist swap/restore protocol
(`VotemapProcessor._set_votemap_selection`, lines 180-201)

```
saved_votemap_whitelist = await self._get_votemap_whitelist()
try:
    await self._api_client.set_votemap_whitelist(selection)
    await asyncio.sleep(2)
    await self._api_client.reset_votemap_state()
except ApiClientError as ex:
    logger.error(...)
finally:
    await asyncio.sleep(2)
    await self._api_client.set_votemap_whitelist(saved_votemap_whitelist)
```

The upstream whitelist is a list of layer ids; `_get_votemap_whitelist` is not
cached, so `saved` is the live pre-state.  `ApiEnv` is the failure oracle: a
`set_votemap_whitelist` call that raises `ApiClientError` leaves the upstream
whitelist in an arbitrary state supplied by the oracle (the HTTP call failed,
so nothing is assumed about its effect); `reset_votemap_state` regenerates the
vote ballot and does not change the whitelist.  The `except` clause swallows
the `ApiClientError`; an error from the restore call in `finally` propagates
out of the method. -/

structure ApiEnv where
  fail_set_selection : Bool
  whitelist_after_failed_set_selection : List String
  fail_reset : Bool
  fail_set_restore : Bool
  whitelist_after_failed_restore : List String
  deriving DecidableEq, Repr

structure ApplyResult where
  /-- the arguments of the `set_votemap_whitelist` invocations, in order -/
  set_whitelist_calls : List (List String)
  /-- how many times `reset_votemap_state` was invoked -/
  reset_calls : ℕ
  /-- the upstream whitelist after the method finishes (or unwinds) -/
  whitelist : List String
  /-- whether the method itself raised (only the restore call can) -/
  raised : Bool
  deriving DecidableEq, Repr

def setVotemapSelection (w₀ : List String) (selection : List String)
    (env : ApiEnv) : ApplyResult :=
  let saved := w₀
  -- the try block: the whitelist state after it, how many reset calls ran
  let afterTry : List String × ℕ :=
    if env.fail_set_selection then (env.whitelist_after_failed_set_selection, 0)
    else (selection, 1)
  -- the finally block: the restore call always runs
  let finalWhitelist :=
    if env.fail_set_restore then env.whitelist_after_failed_restore else saved
  { set_whitelist_calls := [selection, saved]
    reset_calls := afterTry.2
    whitelist := finalWhitelist
    raised := env.fail_set_restore }

/-! ### Layer catalog data model (src/app/models.py:20-102) -/

inductive Orientation where
  | horizontal
  | vertical
  deriving DecidableEq, Repr

inductive GameMode where
  | warfare
  | offensive
  | control
  | phased
  | majority
  deriving DecidableEq, Repr

inductive Team where
  | allies
  | axis
  deriving DecidableEq, Repr

inductive Environment where
  | dawn
  | day
  | dusk
  | night
  | overcast
  | rain
  deriving DecidableEq, Repr

/-- The string value of an `Environment` member; the dataframe join on the
`environment` column compares these strings with the names configured in the
weighting parameters' environment groups. -/
def Environment.toStr : Environment → String
  | .dawn => "dawn"
  | .day => "day"
  | .dusk => "dusk"
  | .night => "night"
  | .overcast => "overcast"
  | .rain => "rain"

structure Faction where
  name : String
  team : Team
  deriving DecidableEq, Repr

structure Map where
  id : String
  name : String
  tag : String
  pretty_name : String
  shortname : String
  allies : Faction
  axis : Faction
  orientation : Orientation
  deriving DecidableEq, Repr

structure Layer where
  id : String
  map : Map
  game_mode : GameMode
  attackers : Option Team
  environment : Environment
  pretty_name : String
  image_name : String
  deriving DecidableEq, Repr

/-- `VoteMapUserConfig` (src/app/models.py / src/polebot/crcon/api_models.py).
The count fields carry a `≥ 0` validator in the source, so they are naturals
here.  The instruction/help text fields never influence the selector and are
carried as plain strings. -/
structure VoteMapUserConfig where
  enabled : Bool
  number_last_played_to_exclude : ℕ
  num_warfare_options : ℕ
  num_offensive_options : ℕ
  num_skirmish_control_options : ℕ
  consider_offensive_same_map : Bool
  consider_skirmishes_as_same_map : Bool
  allow_consecutive_offensives : Bool
  allow_consecutive_offensives_opposite_sides : Bool
  allow_default_to_offensive : Bool
  allow_consecutive_skirmishes : Bool
  allow_default_to_skirmish : Bool
  instruction_text : String
  thank_you_text : Option String
  no_vote_text : String
  reminder_frequency_minutes : ℕ
  allow_opt_out : Bool
  help_text : Option String
  deriving DecidableEq, Repr

/-! ### Map selector (src/app/map_selector/selector.py and config_loader.py)

The source keeps the working set in a pandas dataframe.  Here a dataframe is a
list of rows in order; a `SelectorRow` carries exactly the columns that
`_prepare_dataframe` produces and `_select_layers` reads. -/

/-- One row of the prepared dataframe. -/
structure SelectorRow where
  id : String
  map_id : String
  attackers : Option Team
  environment : Environment
  map_weight : ℚ
  map_repeat_decay : ℚ
  map_group : String
  environment_weight : ℚ
  environment_repeat_decay : ℚ
  environment_category : String
  map_instance_count : ℕ
  environment_instance_count : ℕ
  map_count_normalization_factor : ℚ
  environment_count_normalization_factor : ℚ
  map_repeat_score : ℚ
  environment_repeat_score : ℚ
  deriving DecidableEq, Repr

/-- An exception escaping `_prepare_dataframe`. -/
inductive PrepError where
  /-- `self._layers_by_id[layer]` (line 147) raises `KeyError` when a history
  id is not in the catalog handed to the selector. -/
  | keyError
  /-- line 158 applies unary `~` to the string-valued `attackers` column:
  `df[~df["attackers"] == current_side]` parses as
  `df[(~df["attackers"]) == current_side]`, and pandas raises `TypeError`
  ("bad operand type for unary ~: 'str'") for every non-empty frame. -/
  | typeError
  deriving DecidableEq, Repr

/-- Decidable equality of `Except` results, so that concrete evaluations of
the embedded functions can be checked by `decide`. -/
instance exceptDecidableEq {ε : Type u} {α : Type v} [DecidableEq ε]
    [DecidableEq α] : DecidableEq (Except ε α) := fun a b =>
  match a, b with
  | .error e, .error f =>
      match decEq e f with
      | isTrue h => isTrue (h ▸ rfl)
      | isFalse h => isFalse (fun hc => h (Except.error.inj hc))
  | .error _, .ok _ => isFalse (fun hc => Except.noConfusion hc)
  | .ok _, .error _ => isFalse (fun hc => Except.noConfusion hc)
  | .ok a, .ok b =>
      match decEq a b with
      | isTrue h => isTrue (h ▸ rfl)
      | isFalse h => isFalse (fun hc => h (Except.ok.inj hc))

/-- `self._layers_by_id = {layer.id: layer for layer in layers}` (line 47):
on duplicate ids the later layer wins, hence the lookup searches the reversed
list. -/
def layersById (layers : List Layer) (x : String) : Option Layer :=
  layers.reverse.find? (fun l => l.id = x)

/-- Steps 1–3 of `_prepare_dataframe` (lines 133-158): the row filters, which
operate on plain layers (columns `id`, `map.id`, `attackers`).

* Step 1 (lines 138-141): drop the current layer id and the first
  `number_last_played_to_exclude` history ids.
* Step 2 (lines 145-150): if `consider_offensive_same_map` **or**
  `consider_skirmishes_as_same_map` is set — the same test for every bucket —
  drop layers whose `map.id` equals the map of any of those history entries;
  each history id is looked up in `_layers_by_id`, raising `KeyError` when
  absent.
* Step 3 (lines 157-158): if `allow_consecutive_offensives_opposite_sides`
  and the current layer has an attacker side, evaluate
  `df[~df["attackers"] == current_side]`, which raises `TypeError` on any
  non-empty frame (see `PrepError.typeError`); an empty frame survives because
  the elementwise `~` never runs. -/
def filterBucketLayers (layers : List Layer) (currentLayer : Layer)
    (history : List String) (vmc : VoteMapUserConfig) (bucket : List Layer) :
    Except PrepError (List Layer) :=
  let recentIds := history.take vmc.number_last_played_to_exclude
  let standardExclusions := currentLayer.id :: recentIds
  let df₁ := bucket.filter (fun l => ! standardExclusions.contains l.id)
  let df₂ : Except PrepError (List Layer) :=
    if vmc.consider_offensive_same_map ∨ vmc.consider_skirmishes_as_same_map then
      if recentIds.all (fun h => (layersById layers h).isSome) then
        let mapsToExclude :=
          recentIds.filterMap (fun h => (layersById layers h).map (fun l => l.map.id))
        .ok (df₁.filter (fun l => ! mapsToExclude.contains l.map.id))
      else .error .keyError
    else .ok df₁
  match df₂ with
  | .error e => .error e
  | .ok df₂ =>
      match currentLayer.attackers with
      | some _ =>
          if vmc.allow_consecutive_offensives_opposite_sides then
            if df₂ = ([] : List Layer) then .ok [] else .error .typeError
          else .ok df₂
      | none => .ok df₂

/-- The exploded `df_map_groups` rows matching a given `map.id`
(config_loader.py:29-44 plus the join on line 177-180): one row per
occurrence of the id in a group's `maps` list, carrying
(`map_group`, `map_weight`, `map_repeat_decay`). -/
def matchingMapGroups (groups : List (String × MapGroup)) (mapId : String) :
    List (String × MapGroup) :=
  groups.flatMap (fun g => (g.2.maps.filter (fun m => m = mapId)).map (fun _ => g))

/-- The exploded `df_environments` rows matching a given environment string
(config_loader.py:46-61 plus the join on line 181). -/
def matchingEnvironmentGroups (environments : List (String × EnvironmentGroup))
    (env : String) : List (String × EnvironmentGroup) :=
  environments.flatMap
    (fun g => (g.2.environments.filter (fun e => e = env)).map (fun _ => g))

/-- Steps 2–5 of `_prepare_dataframe` after the filters (lines 160-209):
per-map and per-environment instance counts over the filtered frame, the joins
against the weighting config (a left join on a non-unique index emits one row
per match; a row with no matching map group or no matching environment
category gets NaN there and is removed by the `dropna` on line 197), the
normalization factors `1 / instance_count`, and the repeat scores initialised
to 1. -/
def buildSelectorRows (params : WeightingParameters) (df : List Layer) :
    List SelectorRow :=
  let mapCount := fun (m : String) => (df.filter (fun l => l.map.id = m)).length
  let envCount := fun (e : Environment) => (df.filter (fun l => l.environment = e)).length
  df.flatMap (fun l =>
    (matchingMapGroups params.groups l.map.id).flatMap (fun g =>
      (matchingEnvironmentGroups params.environments l.environment.toStr).map (fun e =>
        { id := l.id
          map_id := l.map.id
          attackers := l.attackers
          environment := l.environment
          map_weight := g.2.weight
          map_repeat_decay := g.2.repeat_decay
          map_group := g.1
          environment_weight := e.2.weight
          environment_repeat_decay := e.2.repeat_decay
          environment_category := e.1
          map_instance_count := mapCount l.map.id
          environment_instance_count := envCount l.environment
          map_count_normalization_factor := 1 / (mapCount l.map.id : ℚ)
          environment_count_normalization_factor := 1 / (envCount l.environment : ℚ)
          map_repeat_score := 1
          environment_repeat_score := 1 })))

/-- `_prepare_dataframe` (lines 133-211). -/
def prepareDataframe (params : WeightingParameters) (layers : List Layer)
    (currentLayer : Layer) (history : List String) (vmc : VoteMapUserConfig)
    (bucket : List Layer) : Except PrepError (List SelectorRow) :=
  (filterBucketLayers layers currentLayer history vmc bucket).map
    (buildSelectorRows params)

/-- The `overall_weighting` column (lines 97-104). -/
def overallWeighting (r : SelectorRow) : ℚ :=
  r.map_weight * r.map_count_normalization_factor * r.environment_weight *
    r.environment_count_normalization_factor * r.map_repeat_score *
    r.environment_repeat_score

/-- One iteration of the `_select_layers` loop (lines 97-129).  `pick`
abstracts `np.random.choice`: it is an arbitrary index into the frame (taken
modulo its length), which over-approximates the sampler's support.  Returns
`none` when the loop `break`s because all weights sum to zero, otherwise the
chosen layer id together with the updated frame:

* every row sharing the chosen row's `map.id` has its `map_repeat_score`
  multiplied by its `map_repeat_decay` (line 124);
* every row sharing the chosen row's `environment_category` has its
  `environment_repeat_score` multiplied by its decay (lines 125-127);
* the chosen id's rows get `map_repeat_score = 0` (line 129).

`df.loc[df["id"] == selected_layer].values[0]` reads the first row carrying
the chosen id; the `.getD` fallback below is unreachable because the chosen id
is the id of a row of the frame. -/
def selectStep (df : List SelectorRow) (pick : ℕ) :
    Option (String × List SelectorRow) :=
  match df with
  | [] => none
  | d₀ :: _ =>
      if (df.map overallWeighting).sum = 0 then none
      else
        let chosenId := (df.getD (pick % df.length) d₀).id
        let props := (df.find? (fun r => r.id = chosenId)).getD d₀
        let df₁ := df.map (fun r =>
          if r.map_id = props.map_id then
            { r with map_repeat_score := r.map_repeat_score * r.map_repeat_decay }
          else r)
        let df₂ := df₁.map (fun r =>
          if r.environment_category = props.environment_category then
            { r with environment_repeat_score :=
                r.environment_repeat_score * r.environment_repeat_decay }
          else r)
        let df₃ := df₂.map (fun r =>
          if r.id = chosenId then { r with map_repeat_score := 0 } else r)
        some (chosenId, df₃)

/-- `_select_layers` (lines 91-131): up to `count` draws accumulated in a set;
the loop stops early when the weights sum to zero.  `picks i` is the sampler's
choice at iteration `i`. -/
def selectLayers (df : List SelectorRow) : ℕ → (ℕ → ℕ) → Finset String
  | 0, _ => ∅
  | count + 1, picks =>
      match selectStep df (picks 0) with
      | none => ∅
      | some (chosenId, df') =>
          insert chosenId (selectLayers df' count (fun i => picks (i + 1)))

/-- The skirmish game modes (line 15). -/
def skirmishModes : List GameMode := [.control, .majority, .phased]

/-- The per-bucket frames built by `get_layer_dataframes`
(config_loader.py:87-89).  Note that `df_skirmish` keeps only
`game_mode == "control"` rows. -/
def dfWarfare (layers : List Layer) : List Layer :=
  layers.filter (fun l => l.game_mode = .warfare)

def dfOffensive (layers : List Layer) : List Layer :=
  layers.filter (fun l => l.game_mode = .offensive)

def dfSkirmish (layers : List Layer) : List Layer :=
  layers.filter (fun l => l.game_mode = .control)

/-- `_get_warfare` (lines 66-70). -/
def getWarfare (params : WeightingParameters) (layers : List Layer)
    (currentLayer : Layer) (history : List String) (vmc : VoteMapUserConfig)
    (picks : ℕ → ℕ) : Except PrepError (Finset String) :=
  (prepareDataframe params layers currentLayer history vmc (dfWarfare layers)).map
    (fun df => selectLayers df vmc.num_warfare_options picks)

/-- `_get_offensive` (lines 72-81), including the consecutive-offensive early
exit. -/
def getOffensive (params : WeightingParameters) (layers : List Layer)
    (currentLayer : Layer) (history : List String) (vmc : VoteMapUserConfig)
    (picks : ℕ → ℕ) : Except PrepError (Finset String) :=
  if currentLayer.game_mode = .offensive ∧ vmc.allow_consecutive_offensives = false then
    .ok ∅
  else
    (prepareDataframe params layers currentLayer history vmc (dfOffensive layers)).map
      (fun df => selectLayers df vmc.num_offensive_options picks)

/-- `_get_skirmish` (lines 83-89), including the consecutive-skirmish early
exit. -/
def getSkirmish (params : WeightingParameters) (layers : List Layer)
    (currentLayer : Layer) (history : List String) (vmc : VoteMapUserConfig)
    (picks : ℕ → ℕ) : Except PrepError (Finset String) :=
  if currentLayer.game_mode ∈ skirmishModes ∧ vmc.allow_consecutive_skirmishes = false then
    .ok ∅
  else
    (prepareDataframe params layers currentLayer history vmc (dfSkirmish layers)).map
      (fun df => selectLayers df vmc.num_skirmish_control_options picks)

/-- `get_selection` (lines 59-64): the three buckets, warfare → offensive →
skirmish.  The current layer is `server_status.map` (line 48). -/
def getSelection (params : WeightingParameters) (layers : List Layer)
    (currentLayer : Layer) (history : List String) (vmc : VoteMapUserConfig)
    (picksW picksO picksS : ℕ → ℕ) :
    Except PrepError (Finset String × Finset String × Finset String) :=
  match getWarfare params layers currentLayer history vmc picksW with
  | .error e => .error e
  | .ok w =>
      match getOffensive params layers currentLayer history vmc picksO with
      | .error e => .error e
      | .ok o =>
          match getSkirmish params layers currentLayer history vmc picksS with
          | .error e => .error e
          | .ok s => .ok (w, o, s)

/-- `VotemapProcessor._generate_votemap_selection` (votemap_processor.py:160-178):
the catalog handed to the selector is filtered to the live whitelist
(`layers = [layer for layer in layers if layer.id in votemap_whitelist]`,
line 168). -/
def whitelistFilteredCatalog (whitelist : List String) (allLayers : List Layer) :
    List Layer :=
  allLayers.filter (fun l => whitelist.contains l.id)

def generateVotemapSelection (params : WeightingParameters)
    (whitelist : List String) (allLayers : List Layer) (currentLayer : Layer)
    (history : List String) (vmc : VoteMapUserConfig)
    (picksW picksO picksS : ℕ → ℕ) :
    Except PrepError (Finset String × Finset String × Finset String) :=
  getSelection params (whitelistFilteredCatalog whitelist allLayers) currentLayer
    history vmc picksW picksO picksS

/-! ### Claim predicates and concrete instances used by the theorems below -/

/-- Claim C6's warfare exemption as stated: the warfare bucket is never
subject to the same-map exclusion, i.e. preparing the warfare bucket gives the
same result whether or not the two `consider_*_same_map` flags are set. -/
def claimC6WarfareUnaffected (params : WeightingParameters) (layers : List Layer)
    (current : Layer) (history : List String) (vmc : VoteMapUserConfig) : Prop :=
  prepareDataframe params layers current history vmc (dfWarfare layers) =
    prepareDataframe params layers current history
      { vmc with consider_offensive_same_map := false,
                 consider_skirmishes_as_same_map := false }
      (dfWarfare layers)

/-- A minimal map record (only `id` matters to the selector). -/
def sampleMap (i : String) : Map :=
  { id := i, name := i, tag := i, pretty_name := i, shortname := i,
    allies := { name := "us", team := .allies },
    axis := { name := "ger", team := .axis },
    orientation := .horizontal }

/-- A votemap config with counts (1,1,1), no history exclusion and all
optional exclusions off. -/
def baseVmc : VoteMapUserConfig :=
  { enabled := false, number_last_played_to_exclude := 0,
    num_warfare_options := 1, num_offensive_options := 1,
    num_skirmish_control_options := 1,
    consider_offensive_same_map := false, consider_skirmishes_as_same_map := false,
    allow_consecutive_offensives := true,
    allow_consecutive_offensives_opposite_sides := false,
    allow_default_to_offensive := false, allow_consecutive_skirmishes := true,
    allow_default_to_skirmish := false, instruction_text := "",
    thank_you_text := none, no_vote_text := "",
    reminder_frequency_minutes := 20, allow_opt_out := true, help_text := none }

/-- Weighting parameters configuring maps `m1`, `mc` and environment `day`. -/
def wParams : WeightingParameters :=
  { groups := [("Top", { weight := 100, repeat_decay := 1/2, maps := ["m1", "mc"] })],
    environments := [("Day", { weight := 100, repeat_decay := 1/2, environments := ["day"] })] }

/-- The current layer: `mc_warfare` on map `mc`. -/
def wCurrent : Layer :=
  { id := "mc_warfare", map := sampleMap "mc", game_mode := .warfare,
    attackers := none, environment := .day, pretty_name := "", image_name := "" }

/-- Another warfare layer on map `m1`. -/
def wLayer1 : Layer :=
  { id := "m1_warfare", map := sampleMap "m1", game_mode := .warfare,
    attackers := none, environment := .day, pretty_name := "", image_name := "" }

/-- A second warfare layer sharing map `m1` with `wLayer1`. -/
def c6Extra : Layer :=
  { id := "m1_warfare_2", map := sampleMap "m1", game_mode := .warfare,
    attackers := none, environment := .day, pretty_name := "", image_name := "" }

/-- Catalog for the C6 counterexample. -/
def c6Layers : List Layer := [wCurrent, wLayer1, c6Extra]

/-- Config for the C6 counterexample: `consider_offensive_same_map` on, one history
entry considered. -/
def c6Vmc : VoteMapUserConfig :=
  { baseVmc with consider_offensive_same_map := true,
                 number_last_played_to_exclude := 1 }

/-- Config for the C5 evaluation: `allow_consecutive_offensives_opposite_sides` on. -/
def c5Vmc : VoteMapUserConfig :=
  { baseVmc with allow_consecutive_offensives_opposite_sides := true }

/-- Current layer for the C5 evaluation: an offensive layer attacked by the allies. -/
def c5Current : Layer :=
  { id := "cur_offensive_us", map := sampleMap "cur", game_mode := .offensive,
    attackers := some .allies, environment := .day, pretty_name := "", image_name := "" }

/-- An offensive layer attacked by the axis — the opposite side, which the
spec says should be kept. -/
def c5Opposite : Layer :=
  { id := "m1_offensive_ger", map := sampleMap "m1", game_mode := .offensive,
    attackers := some .axis, environment := .day, pretty_name := "", image_name := "" }

/-- An offensive layer attacked by the allies — the same side, which the spec
says should be excluded. -/
def c5SameSide : Layer :=
  { id := "m2_offensive_us", map := sampleMap "m2", game_mode := .offensive,
    attackers := some .allies, environment := .day, pretty_name := "", image_name := "" }

/-- One-step unfolding of `backoffAux` at a successor index. -/
lemma backoffAux_succ (p : BackoffParams) (n a : ℕ) (d : ℚ) :
    backoffAux p (n + 1) a d =
      if p.max_attempts ≠ 0 ∧ p.max_attempts ≤ a then none
      else if d < p.max_delay then backoffAux p n (a + 1) (d * p.factor)
      else backoffAux p n (a + 1) d := rfl

/-- The generator state after `n` steps is live iff the attempt budget is not
yet exhausted. -/
lemma backoffAux_isSome_iff (p : BackoffParams) :
    ∀ (n a : ℕ) (d : ℚ),
      (backoffAux p n a d).isSome ↔ ¬(p.max_attempts ≠ 0 ∧ p.max_attempts ≤ a + n) := by
  intro n
  induction n with
  | zero =>
      intro a d
      simp only [backoffAux]
      by_cases h : p.max_attempts ≠ 0 ∧ p.max_attempts ≤ a
      · simp [h]
      · by_cases hd : d < p.max_delay <;> simp [h, hd]
  | succ n ih =>
      intro a d
      simp only [backoffAux]
      by_cases h : p.max_attempts ≠ 0 ∧ p.max_attempts ≤ a
      · have : p.max_attempts ≠ 0 ∧ p.max_attempts ≤ a + (n + 1) :=
          ⟨h.1, le_trans h.2 (Nat.le_add_right _ _)⟩
        simp [h, this]
      · by_cases hd : d < p.max_delay
        · rw [if_neg h, if_pos hd, ih]
          constructor
          · intro hn hc; exact hn ⟨hc.1, by omega⟩
          · intro hn hc; exact hn ⟨hc.1, by omega⟩
        · rw [if_neg h, if_neg hd, ih]
          constructor
          · intro hn hc; exact hn ⟨hc.1, by omega⟩
          · intro hn hc; exact hn ⟨hc.1, by omega⟩

/-- Every value the two loops yield is at most `max_delay`. -/
lemma backoffAux_le_max (p : BackoffParams) :
    ∀ (n a : ℕ) (d v : ℚ), backoffAux p n a d = some v → v ≤ p.max_delay := by
  intro n
  induction n with
  | zero =>
      intro a d v h
      simp only [backoffAux] at h
      by_cases hs : p.max_attempts ≠ 0 ∧ p.max_attempts ≤ a
      · simp [hs] at h
      · by_cases hd : d < p.max_delay
        · rw [if_neg hs, if_pos hd] at h
          cases h; exact le_of_lt hd
        · rw [if_neg hs, if_neg hd] at h
          cases h; exact le_refl _
  | succ n ih =>
      intro a d v h
      simp only [backoffAux] at h
      by_cases hs : p.max_attempts ≠ 0 ∧ p.max_attempts ≤ a
      · simp [hs] at h
      · by_cases hd : d < p.max_delay
        · rw [if_neg hs, if_pos hd] at h; exact ih _ _ _ h
        · rw [if_neg hs, if_neg hd] at h; exact ih _ _ _ h

/-- Successive yields never decrease (for a non-negative delay and a
factor of at least one). -/
lemma backoffAux_mono (p : BackoffParams) (hf : 1 ≤ p.factor) :
    ∀ (n a : ℕ) (d : ℚ), 0 ≤ d →
      ∀ v w, backoffAux p n a d = some v → backoffAux p (n + 1) a d = some w → v ≤ w := by
  intro n
  induction n with
  | zero =>
      intro a d hd0 v w hv hw
      simp only [backoffAux] at hv hw
      by_cases hs : p.max_attempts ≠ 0 ∧ p.max_attempts ≤ a
      · simp [hs] at hv
      · rw [if_neg hs] at hv hw
        by_cases hd : d < p.max_delay
        · rw [if_pos hd] at hv hw
          cases hv
          have hd' : 0 ≤ d * p.factor := mul_nonneg hd0 (le_trans zero_le_one hf)
          by_cases hs' : p.max_attempts ≠ 0 ∧ p.max_attempts ≤ a + 1
          · simp [backoffAux, hs'] at hw
          · simp only [backoffAux, if_neg hs'] at hw
            by_cases hd2 : d * p.factor < p.max_delay
            · rw [if_pos hd2] at hw
              cases hw; exact le_mul_of_one_le_right hd0 hf
            · rw [if_neg hd2] at hw
              cases hw; exact le_of_lt hd
        · rw [if_neg hd] at hv hw
          cases hv
          by_cases hs' : p.max_attempts ≠ 0 ∧ p.max_attempts ≤ a + 1
          · simp [backoffAux, hs'] at hw
          · simp only [backoffAux, if_neg hs', if_neg hd] at hw
            cases hw; exact le_refl _
  | succ n ih =>
      intro a d hd0 v w hv hw
      simp only [backoffAux] at hv hw
      by_cases hs : p.max_attempts ≠ 0 ∧ p.max_attempts ≤ a
      · simp [hs] at hv
      · rw [if_neg hs] at hv hw
        by_cases hd : d < p.max_delay
        · rw [if_pos hd] at hv hw
          exact ih (a + 1) _ (mul_nonneg hd0 (le_trans zero_le_one hf)) v w hv hw
        · rw [if_neg hd] at hv hw
          exact ih (a + 1) _ hd0 v w hv hw

/-- Once a yield equals `max_delay`, the next yield is again `max_delay`
(provided the generator has not terminated). -/
lemma backoffAux_steady (p : BackoffParams) (h0 : p.max_attempts = 0) :
    ∀ (n a : ℕ) (d : ℚ), backoffAux p n a d = some p.max_delay →
      backoffAux p (n + 1) a d = some p.max_delay := by
  intro n
  induction n with
  | zero =>
      intro a d hv
      simp only [backoffAux, h0, ne_eq, not_true_eq_false, false_and, if_false] at hv ⊢
      by_cases hd : d < p.max_delay
      · rw [if_pos hd] at hv
        cases hv
        exact absurd hd (lt_irrefl _)
      · rw [if_neg hd] at hv ⊢
        rw [if_neg hd]
  | succ n ih =>
      intro a d hv
      rw [backoffAux_succ] at hv
      rw [backoffAux_succ]
      simp only [h0, ne_eq, not_true_eq_false, false_and, if_false] at hv ⊢
      by_cases hd : d < p.max_delay
      · rw [if_pos hd] at hv ⊢
        exact ih _ _ hv
      · rw [if_neg hd] at hv ⊢
        exact ih _ _ hv


lemma firstConnectionFlag_eq (n : ℕ) : firstConnectionFlag n = decide (n = 0) := by
  cases n with
  | zero => rfl
  | succ n =>
      induction n with
      | zero => rfl
      | succ m ih =>
          simp only [firstConnectionFlag, connectPickClassifier] at ih ⊢
          rw [ih]
          simp

/-! ## Claim C1 -/

/-- Claim C1: for every selection-and-apply invocation with a non-empty selection,
`set_votemap_whitelist` is invoked exactly twice — first with the computed
selection, then, on every exit path (even when the intermediate
`set_votemap_whitelist` or `reset_votemap_state` call raises `ApiClientError`),
with the whitelist saved before the swap — and whenever the final restore call
succeeds, the upstream whitelist post-state equals its pre-state. -/
theorem setVotemapSelection_restores_whitelist
    (w₀ selection : List String) (env : ApiEnv) (hsel : selection ≠ []) :
    (setVotemapSelection w₀ selection env).set_whitelist_calls = [selection, w₀] ∧
    (env.fail_set_restore = false →
      (setVotemapSelection w₀ selection env).whitelist = w₀) := by
  refine ⟨rfl, fun h => ?_⟩
  simp [setVotemapSelection, h]

/-- Witness for C1 at the spec's scenario 4: pre-state `["A","B","C"]`,
`reset_votemap_state` raises; the two recorded calls are the selection and the
saved pre-state, and the whitelist ends up restored. -/
theorem setVotemapSelection_restores_whitelist_witness :
    (setVotemapSelection ["A", "B", "C"] ["X"]
        ⟨false, [], true, false, []⟩).set_whitelist_calls = [["X"], ["A", "B", "C"]] ∧
    ((⟨false, [], true, false, []⟩ : ApiEnv).fail_set_restore = false →
      (setVotemapSelection ["A", "B", "C"] ["X"]
          ⟨false, [], true, false, []⟩).whitelist = ["A", "B", "C"]) :=
  setVotemapSelection_restores_whitelist _ _ _ (by decide)

/-! ## Claim C3 -/

/-- Counterexample to C3 as stated: a `match_end` event received while the
processor is disabled does **not** prepend the current map id to the layer
history — `_receive_and_process_message` returns before dispatching when
`not self.enabled` (votemap_processor.py:127-129). -/
theorem matchEnd_ignored_when_disabled_counterexample :
    receiveAndProcessMessage ⟨false, none, []⟩ .match_end "carentan_warfare" =
      (⟨false, none, []⟩, .sleptDisabled) ∧
    ¬ (receiveAndProcessMessage ⟨false, none, []⟩ .match_end
        "carentan_warfare").1.layer_history = ["carentan_warfare"] := by
  constructor
  · rfl
  · intro h
    simp [receiveAndProcessMessage] at h

/-- Claim C3, amended: on `match_end` the status's current map id is prepended at the
head of the capacity-10 layer history **when the processor is enabled**; when
it is disabled the message is ignored and the history is unchanged. -/
theorem matchEnd_prepends_history (st : ProcessorState) (statusMapId : String) :
    (st.enabled = true →
      receiveAndProcessMessage st .match_end statusMapId =
        ({ st with layer_history := (statusMapId :: st.layer_history).take 10 },
         .prependedHistory)) ∧
    (st.enabled = false →
      receiveAndProcessMessage st .match_end statusMapId = (st, .sleptDisabled)) := by
  constructor
  · intro h
    simp [receiveAndProcessMessage, h]
  · intro h
    simp [receiveAndProcessMessage, h]

/-- Witness for C3 (amended) at the spec's scenario 3: enabled processor,
history `["utahbeach_warfare"]`, `match_end` with current map
`carentan_warfare` gives history `["carentan_warfare", "utahbeach_warfare"]`. -/
theorem matchEnd_prepends_history_witness :
    receiveAndProcessMessage ⟨true, some ⟨[], []⟩, ["utahbeach_warfare"]⟩ .match_end
      "carentan_warfare" =
      (⟨true, some ⟨[], []⟩, ["carentan_warfare", "utahbeach_warfare"]⟩,
       .prependedHistory) :=
  (matchEnd_prepends_history ⟨true, some ⟨[], []⟩, ["utahbeach_warfare"]⟩
    "carentan_warfare").1 rfl

/-! ## Claim C4 -/

/-- Counterexample to C4 as stated: the server controller's
`weighting_parameters` setter writes the processor's private
`_weighting_parameters` field directly (server_controller.py:78) instead of
delegating to the processor's `weighting_params` setter, so clearing the
parameters through the controller does **not** disable the processor and
breaks the enable invariant. -/
theorem controller_weighting_setter_counterexample :
    (controllerSetWeightingParameters ⟨true, some ⟨[], []⟩, []⟩ none).enabled = true ∧
    ¬ processorInvariant (controllerSetWeightingParameters ⟨true, some ⟨[], []⟩, []⟩ none) := by
  refine ⟨rfl, fun h => ?_⟩
  exact (h rfl) rfl

/-- Claim C4, amended: the invariant "enabled implies weighting parameters non-null"
is established by the **processor's** own mutators — enabling with null
parameters raises `ValueError`, any state produced by the `enabled` setter
satisfies the invariant, and the processor's `weighting_params` setter with
null disables the processor (and always re-establishes the invariant) — but
the server controller's `weighting_parameters` setter bypasses the processor's
setter: it writes the field directly and leaves the `enabled` flag untouched. -/
theorem processor_invariant_ops (st : ProcessorState) (b : Bool)
    (v : Option WeightingParameters) :
    (st.weighting_parameters = none →
      processorSetEnabled st true =
        .error "Cannot enable votemap processor without configuring weighting parameters") ∧
    (∀ st', processorSetEnabled st b = .ok st' → processorInvariant st') ∧
    ((processorSetWeightingParams st none).enabled = false) ∧
    (processorInvariant (processorSetWeightingParams st v)) ∧
    ((controllerSetWeightingParameters st v).enabled = st.enabled ∧
     (controllerSetWeightingParameters st v).weighting_parameters = v) := by
  refine ⟨fun h => ?_, fun st' h => ?_, ?_, ?_, rfl, rfl⟩
  · simp [processorSetEnabled, h]
  · by_cases hb : b = true
    · subst hb
      by_cases hw : st.weighting_parameters = none
      · simp [processorSetEnabled, hw] at h
      · simp [processorSetEnabled, hw] at h
        intro _
        rw [← h]
        exact hw
    · simp only [Bool.not_eq_true] at hb
      subst hb
      simp [processorSetEnabled] at h
      intro hc
      rw [← h] at hc
      simp at hc
  · simp [processorSetWeightingParams]
  · by_cases hv : v = none
    · subst hv
      intro hc
      simp [processorSetWeightingParams] at hc
    · intro _
      simp [processorSetWeightingParams, hv]

/-- Witness for C4 (amended): concrete checks — enabling an unconfigured
processor errors; the processor's setter with null disables; the controller's
setter leaves `enabled` as it was. -/
theorem processor_invariant_ops_witness :
    ((⟨false, none, []⟩ : ProcessorState).weighting_parameters = none →
      processorSetEnabled ⟨false, none, []⟩ true =
        .error "Cannot enable votemap processor without configuring weighting parameters") ∧
    (∀ st', processorSetEnabled ⟨false, none, []⟩ true = .ok st' → processorInvariant st') ∧
    ((processorSetWeightingParams ⟨false, none, []⟩ none).enabled = false) ∧
    (processorInvariant (processorSetWeightingParams ⟨false, none, []⟩ none)) ∧
    ((controllerSetWeightingParameters ⟨false, none, []⟩ none).enabled =
      (⟨false, none, []⟩ : ProcessorState).enabled ∧
     (controllerSetWeightingParameters ⟨false, none, []⟩ none).weighting_parameters = none) :=
  processor_invariant_ops ⟨false, none, []⟩ true none

/-! ## Claim C7 -/

/-- Counterexample to C7 as stated: on a fresh client (`last_seen_id = None`,
no filter) the init frame still contains the `last_seen_id` key — the final
unconditional `body_obj["last_seen_id"] = self.last_seen_id`
(log_stream_client.py:183) puts it there with a null value. -/
theorem initFrame_counterexample :
    sendInitMessage none none = [("last_seen_id", InitValue.null)] ∧
    ¬ claimC7KeyOnlyWhenPresent none none := by
  refine ⟨rfl, fun h => ?_⟩
  have := h (by decide)
  simp at this

/-- Claim C7, amended: the init frame **always** contains the `last_seen_id` key
(with the stored cursor, or null when there is none); the `actions` key is
present exactly when a non-empty log-type filter is set, and the filter list
is transmitted unchanged. -/
theorem initFrame_contents (last_seen_id : Option String)
    (log_types : Option (List LogMessageType)) :
    ((sendInitMessage last_seen_id log_types).any
        (fun p => p.1 = "last_seen_id") = true) ∧
    ((sendInitMessage last_seen_id log_types).any
        (fun p => p.1 = "actions") = truthyList log_types) ∧
    (truthyList log_types = true →
      ("actions", InitValue.actions (log_types.getD [])) ∈
        sendInitMessage last_seen_id log_types) := by
  by_cases h1 : truthyStr last_seen_id = true <;>
    by_cases h2 : truthyList log_types = true <;>
      simp_all [sendInitMessage, dictSet]

/-- Witness for C7 (amended): a client with a stored cursor and the
`{match_start, match_end}` filter set by the server controller
(server_controller.py:86). -/
theorem initFrame_contents_witness :
    ((sendInitMessage (some "1526919030474-0")
        (some [.match_start, .match_end])).any
        (fun p => p.1 = "last_seen_id") = true) ∧
    ((sendInitMessage (some "1526919030474-0")
        (some [.match_start, .match_end])).any (fun p => p.1 = "actions") =
      truthyList (some [.match_start, .match_end])) ∧
    (truthyList (some [.match_start, .match_end]) = true →
      ("actions", InitValue.actions ((some [LogMessageType.match_start,
          LogMessageType.match_end]).getD [])) ∈
        sendInitMessage (some "1526919030474-0") (some [.match_start, .match_end])) :=
  initFrame_contents (some "1526919030474-0") (some [.match_start, .match_end])

/-! ## Claim C8 -/

/-- Claim C8: the connection-exception classifier treats a DNS lookup failure as
fatal on the first connection attempt only and retryable on every later
attempt; the discriminator is the single `_first_connection` boolean, true
only before the first `_connect` call; EOF, other OS/socket errors, timeouts
and HTTP upgrade statuses 500/502/503/504 are always retryable, and every
other exception is fatal. -/
theorem connection_exception_classification (n code : ℕ) :
    (classifierAtAttempt 0 .gaierror = some .gaierror) ∧
    (0 < n → classifierAtAttempt n .gaierror = none) ∧
    (classifierAtAttempt n .eofError = none ∧
     classifierAtAttempt n .osError = none ∧
     classifierAtAttempt n .timeoutError = none) ∧
    ((code = 500 ∨ code = 502 ∨ code = 503 ∨ code = 504) →
      classifierAtAttempt n (.invalidStatus code) = none) ∧
    (¬(code = 500 ∨ code = 502 ∨ code = 503 ∨ code = 504) →
      classifierAtAttempt n (.invalidStatus code) = some (.invalidStatus code)) ∧
    (classifierAtAttempt n .other = some .other) ∧
    (firstConnectionFlag n = decide (n = 0)) := by
  have hflag := firstConnectionFlag_eq n
  have hcls : classifierAtAttempt n =
      (if n = 0 then process_exception_fail_on_dns_error
       else process_exception_standard_rules) := by
    rw [classifierAtAttempt, hflag]
    by_cases hn : n = 0 <;> simp [connectPickClassifier, hn]
  refine ⟨rfl, fun hn => ?_, ?_, fun hc => ?_, fun hc => ?_, ?_, hflag⟩
  · rw [hcls, if_neg (Nat.pos_iff_ne_zero.mp hn)]
    rfl
  · rw [hcls]
    by_cases hn : n = 0 <;>
      simp [hn, process_exception_fail_on_dns_error, process_exception_standard_rules]
  · rw [hcls]
    by_cases hn : n = 0 <;>
      simp [hn, process_exception_fail_on_dns_error, process_exception_standard_rules, hc]
  · rw [hcls]
    by_cases hn : n = 0 <;>
      simp [hn, process_exception_fail_on_dns_error, process_exception_standard_rules, hc]
  · rw [hcls]
    by_cases hn : n = 0 <;>
      simp [hn, process_exception_fail_on_dns_error, process_exception_standard_rules]

/-- Witness for C8 at the second attempt (`n = 1`) and status 502: DNS is now
retryable, a 502 upgrade status is retryable, a 400 status is fatal. -/
theorem connection_exception_classification_witness :
    classifierAtAttempt 1 .gaierror = none ∧
    classifierAtAttempt 1 (.invalidStatus 502) = none ∧
    classifierAtAttempt 1 (.invalidStatus 400) = some (.invalidStatus 400) :=
  ⟨(connection_exception_classification 1 502).2.1 (by decide),
   (connection_exception_classification 1 502).2.2.2.1 (by decide),
   (connection_exception_classification 1 400).2.2.2.2.1 (by decide)⟩

/-! ## Claim C10 -/

/-- Claim C10: a received frame whose decoded `LogStreamResponse` carries a
non-empty `error` raises `LogStreamMessageError` and leaves the client's
observable state unchanged: the stored `last_seen_id` keeps its previous value
and nothing from that frame is enqueued. -/
theorem errorFrame_raises_and_preserves_state
    (st : LogStreamClientState) (resp : LogStreamResponse) (e : String)
    (he : resp.error = some e) (hne : e ≠ "") :
    handleIncomingMessage st (.ok resp) = (st, .raisedLogStreamMessageError e) := by
  simp [handleIncomingMessage, he, hne]

/-- Witness for C10: a frame carrying logs and a fresh cursor but a non-empty
error leaves the cursor and the queue untouched. -/
theorem errorFrame_raises_and_preserves_state_witness :
    handleIncomingMessage ⟨some "10-0", []⟩
      (.ok ⟨[⟨some "11-0",
        ⟨1, 0, 0, none, "", none, .match_start, none, none, none, none, none, "", none⟩⟩],
        some "11-0", some "stream error"⟩) =
      (⟨some "10-0", []⟩, .raisedLogStreamMessageError "stream error") :=
  errorFrame_raises_and_preserves_state ⟨some "10-0", []⟩
    ⟨[⟨some "11-0",
      ⟨1, 0, 0, none, "", none, .match_start, none, none, none, none, none, "", none⟩⟩],
      some "11-0", some "stream error"⟩ "stream error" rfl (by decide)

/-! ## Claim C9 -/

/-- Counterexample to C9 as stated: with `initial_delay = 0` — allowed by the
claim, which only constrains `min_delay`, `max_delay` and `factor` — the first
yielded value is `0`, which does not lie in the empty interval `[0, 0)`. -/
theorem backoff_first_value_counterexample :
    0 ≤ backoffZeroInitialParams.min_delay ∧
    backoffZeroInitialParams.min_delay ≤ backoffZeroInitialParams.max_delay ∧
    1 ≤ backoffZeroInitialParams.factor ∧
    0 ≤ (1/2 : ℚ) ∧ (1/2 : ℚ) < 1 ∧
    ¬ claimC9FirstInRange backoffZeroInitialParams (1/2) := by
  refine ⟨by norm_num [backoffZeroInitialParams], by norm_num [backoffZeroInitialParams],
    by norm_num [backoffZeroInitialParams], by norm_num, by norm_num, fun h => ?_⟩
  have h0 : backoffSeq backoffZeroInitialParams (1/2) 0 = some 0 := by
    norm_num [backoffSeq, backoffZeroInitialParams]
  have := (h 0 h0).2
  norm_num [backoffZeroInitialParams] at this

/-- Claim C9, amended: for parameters with `0 ≤ min_delay ≤ max_delay`, `factor ≥ 1`
and **positive** `initial_delay`, and a uniform draw `r ∈ [0,1)`: the first
yielded value lies in `[0, initial_delay)`; from the second value onward the
sequence is non-decreasing and bounded above by `max_delay`; with
`max_attempts = 0` the generator never terminates and, once it yields
`max_delay`, it yields `max_delay` from then on; with positive `max_attempts`
it yields exactly `max_attempts` values in total. -/
theorem backoff_sequence_spec (p : BackoffParams) (r : ℚ)
    (hinit : 0 < p.initial_delay) (hmin : 0 ≤ p.min_delay)
    (hminmax : p.min_delay ≤ p.max_delay) (hf : 1 ≤ p.factor)
    (hr0 : 0 ≤ r) (hr1 : r < 1) :
    (∀ v, backoffSeq p r 0 = some v → 0 ≤ v ∧ v < p.initial_delay) ∧
    (∀ n v w, backoffSeq p r (n + 1) = some v → backoffSeq p r (n + 2) = some w →
      v ≤ w) ∧
    (∀ n v, backoffSeq p r (n + 1) = some v → v ≤ p.max_delay) ∧
    (p.max_attempts = 0 →
      (∀ n, (backoffSeq p r n).isSome) ∧
      (∀ n, backoffSeq p r (n + 1) = some p.max_delay →
        backoffSeq p r (n + 2) = some p.max_delay)) ∧
    (0 < p.max_attempts → ∀ n, (backoffSeq p r n).isSome ↔ n < p.max_attempts) := by
  refine ⟨?_, ?_, ?_, ?_, ?_⟩
  · intro v hv
    cases hv
    exact ⟨mul_nonneg hr0 (le_of_lt hinit), mul_lt_of_lt_one_left hinit hr1⟩
  · intro n v w hv hw
    exact backoffAux_mono p hf n 1 p.min_delay hmin v w hv hw
  · intro n v hv
    exact backoffAux_le_max p n 1 p.min_delay v hv
  · intro h0
    constructor
    · intro n
      cases n with
      | zero => rfl
      | succ n =>
          rw [show backoffSeq p r (n + 1) = backoffAux p n 1 p.min_delay from rfl]
          rw [backoffAux_isSome_iff]
          simp [h0]
    · intro n hv
      exact backoffAux_steady p h0 n 1 p.min_delay hv
  · intro hpos n
    cases n with
    | zero =>
        simp only [backoffSeq, Option.isSome_some, true_iff]
        exact hpos
    | succ n =>
        rw [show backoffSeq p r (n + 1) = backoffAux p n 1 p.min_delay from rfl]
        rw [backoffAux_isSome_iff]
        constructor
        · intro hn
          by_contra hc
          exact hn ⟨Nat.pos_iff_ne_zero.mp hpos, by omega⟩
        · intro hn hc
          omega

/-- Witness for C9 (amended) at the source defaults
(`initial=5, min=3.1, max=90, factor=1.618, max_attempts=0`) and `r = 1/2`:
the first value `5/2` lies in `[0, 5)`. -/
theorem backoff_sequence_spec_witness :
    0 ≤ (1/2 : ℚ) * 5 ∧ (1/2 : ℚ) * 5 < (5 : ℚ) :=
  (backoff_sequence_spec backoffDefaultParams (1/2)
    (by norm_num [backoffDefaultParams]) (by norm_num [backoffDefaultParams])
    (by norm_num [backoffDefaultParams]) (by norm_num [backoffDefaultParams])
    (by norm_num) (by norm_num)).1 ((1/2 : ℚ) * 5) rfl

/-! ## Map selector lemmas -/

/-- Whatever branch `_prepare_dataframe`'s filter stage takes, every surviving
layer already survived the standard exclusions. -/
lemma filterBucketLayers_ok_sub (layers : List Layer) (currentLayer : Layer)
    (history : List String) (vmc : VoteMapUserConfig) (bucket : List Layer)
    (ls : List Layer)
    (h : filterBucketLayers layers currentLayer history vmc bucket = .ok ls) :
    ∀ l ∈ ls,
      l ∈ bucket.filter (fun l =>
        ! (currentLayer.id ::
            history.take vmc.number_last_played_to_exclude).contains l.id) := by
  simp only [filterBucketLayers] at h
  by_cases hflag : vmc.consider_offensive_same_map ∨ vmc.consider_skirmishes_as_same_map
  · rw [if_pos hflag] at h
    by_cases hall : (history.take vmc.number_last_played_to_exclude).all
        (fun x => (layersById layers x).isSome) = true
    · rw [if_pos hall] at h
      dsimp only at h
      cases hatt : currentLayer.attackers with
      | none =>
          rw [hatt] at h
          dsimp only at h
          cases h
          intro l hl
          exact List.mem_of_mem_filter hl
      | some side =>
          rw [hatt] at h
          dsimp only at h
          split_ifs at h <;> (try cases h) <;> intro l hl <;>
            first
            | exact List.mem_of_mem_filter hl
            | exact hl
            | simp at hl
    · rw [if_neg hall] at h
      dsimp only at h
      cases h
  · rw [if_neg hflag] at h
    dsimp only at h
    cases hatt : currentLayer.attackers with
    | none =>
        rw [hatt] at h
        dsimp only at h
        cases h
        intro l hl
        exact hl
    | some side =>
        rw [hatt] at h
        dsimp only at h
        split_ifs at h <;> (try cases h) <;> intro l hl <;>
          first
          | exact List.mem_of_mem_filter hl
          | exact hl
          | simp at hl

/-- A surviving layer comes from the bucket and is not the current layer. -/
lemma filterBucketLayers_ok_mem (layers : List Layer) (currentLayer : Layer)
    (history : List String) (vmc : VoteMapUserConfig) (bucket : List Layer)
    (ls : List Layer)
    (h : filterBucketLayers layers currentLayer history vmc bucket = .ok ls) :
    ∀ l ∈ ls, l ∈ bucket ∧ l.id ≠ currentLayer.id := by
  intro l hl
  have hmem := filterBucketLayers_ok_sub layers currentLayer history vmc bucket ls h l hl
  rw [List.mem_filter] at hmem
  refine ⟨hmem.1, fun hc => ?_⟩
  have := hmem.2
  rw [hc] at this
  simp at this

/-- Every prepared row's id is the id of a layer of the filtered frame. -/
lemma buildSelectorRows_mem (params : WeightingParameters) (df : List Layer)
    (r : SelectorRow) (h : r ∈ buildSelectorRows params df) :
    ∃ l ∈ df, r.id = l.id := by
  simp only [buildSelectorRows, List.mem_flatMap, List.mem_map] at h
  obtain ⟨l, hl, g, _, e, _, he⟩ := h
  exact ⟨l, hl, by rw [← he]⟩

lemma map_id_of_preserve (g : SelectorRow → SelectorRow)
    (hg : ∀ r, (g r).id = r.id) (l : List SelectorRow) :
    (l.map g).map (fun r => r.id) = l.map (fun r => r.id) := by
  rw [List.map_map]
  exact List.map_congr_left (fun r _ => hg r)

lemma map3_id_of_preserve (g₁ g₂ g₃ : SelectorRow → SelectorRow)
    (h₁ : ∀ r, (g₁ r).id = r.id) (h₂ : ∀ r, (g₂ r).id = r.id)
    (h₃ : ∀ r, (g₃ r).id = r.id) (l : List SelectorRow) :
    (((l.map g₁).map g₂).map g₃).map (fun r => r.id) = l.map (fun r => r.id) := by
  rw [map_id_of_preserve g₃ h₃, map_id_of_preserve g₂ h₂, map_id_of_preserve g₁ h₁]

/-- A successful draw picks an id of the frame and leaves the frame's id
column unchanged (only the score columns are updated). -/
lemma selectStep_some (df : List SelectorRow) (pick : ℕ) (x : String)
    (df' : List SelectorRow) (h : selectStep df pick = some (x, df')) :
    x ∈ df.map (fun r => r.id) ∧ df'.map (fun r => r.id) = df.map (fun r => r.id) := by
  cases df with
  | nil => simp [selectStep] at h
  | cons d₀ rest =>
      simp only [selectStep] at h
      by_cases hs : (((d₀ :: rest).map overallWeighting)).sum = 0
      · rw [if_pos hs] at h
        cases h
      · rw [if_neg hs] at h
        simp only [Option.some.injEq, Prod.mk.injEq] at h
        obtain ⟨hx, hdf⟩ := h
        have hlen : pick % (d₀ :: rest).length < (d₀ :: rest).length :=
          Nat.mod_lt _ (by simp)
        have hget : (d₀ :: rest).getD (pick % (d₀ :: rest).length) d₀ =
            (d₀ :: rest).get ⟨pick % (d₀ :: rest).length, hlen⟩ := by
          rw [List.getD_eq_getElem?_getD, List.getElem?_eq_getElem hlen]
          rfl
        constructor
        · rw [← hx, hget]
          exact List.mem_map_of_mem _ (List.get_mem _ _ _)
        · rw [← hdf]
          exact map3_id_of_preserve _ _ _
            (fun r => by split <;> rfl)
            (fun r => by split <;> rfl)
            (fun r => by split <;> rfl) _

/-- `_select_layers` returns at most `count` ids. -/
lemma selectLayers_card_le (count : ℕ) :
    ∀ (df : List SelectorRow) (picks : ℕ → ℕ),
      (selectLayers df count picks).card ≤ count := by
  induction count with
  | zero => intro df picks; simp [selectLayers]
  | succ n ih =>
      intro df picks
      rw [selectLayers]
      cases hstep : selectStep df (picks 0) with
      | none => simp
      | some p =>
          obtain ⟨x, df'⟩ := p
          calc (insert x (selectLayers df' n (fun i => picks (i + 1)))).card
              ≤ (selectLayers df' n (fun i => picks (i + 1))).card + 1 :=
                Finset.card_insert_le _ _
            _ ≤ n + 1 := by
                have := ih df' (fun i => picks (i + 1))
                omega

/-- Every id `_select_layers` returns is an id of the prepared frame. -/
lemma selectLayers_mem (count : ℕ) :
    ∀ (df : List SelectorRow) (picks : ℕ → ℕ) (x : String),
      x ∈ selectLayers df count picks → x ∈ df.map (fun r => r.id) := by
  induction count with
  | zero => intro df picks x hx; simp [selectLayers] at hx
  | succ n ih =>
      intro df picks x hx
      rw [selectLayers] at hx
      cases hstep : selectStep df (picks 0) with
      | none => rw [hstep] at hx; simp at hx
      | some p =>
          obtain ⟨y, df'⟩ := p
          rw [hstep] at hx
          obtain ⟨hy, hids⟩ := selectStep_some df (picks 0) y df' hstep
          rcases Finset.mem_insert.mp hx with hxy | hxs
          · rw [hxy]; exact hy
          · have := ih df' (fun i => picks (i + 1)) x hxs
            rw [hids] at this
            exact this

/-- Everything one bucket draw produces: at most `count` ids, all ids of
bucket layers, none equal to the current layer's id. -/
lemma bucket_selection_spec (params : WeightingParameters) (layers : List Layer)
    (currentLayer : Layer) (history : List String) (vmc : VoteMapUserConfig)
    (bucket : List Layer) (count : ℕ) (picks : ℕ → ℕ) (F : Finset String)
    (h : (prepareDataframe params layers currentLayer history vmc bucket).map
        (fun df => selectLayers df count picks) = .ok F) :
    F.card ≤ count ∧
      ∀ x ∈ F, (∃ l ∈ bucket, x = l.id) ∧ x ≠ currentLayer.id := by
  cases hf : filterBucketLayers layers currentLayer history vmc bucket with
  | error e =>
      rw [prepareDataframe, hf] at h
      dsimp only [Except.map] at h
      cases h
  | ok ls =>
      rw [prepareDataframe, hf] at h
      dsimp only [Except.map] at h
      injection h with h
      subst h
      refine ⟨selectLayers_card_le count _ picks, fun x hx => ?_⟩
      have hx' := selectLayers_mem count _ picks x hx
      rw [List.mem_map] at hx'
      obtain ⟨r, hr, hrid⟩ := hx'
      obtain ⟨l, hl, hid⟩ := buildSelectorRows_mem params ls r hr
      obtain ⟨hbl, hne⟩ :=
        filterBucketLayers_ok_mem layers currentLayer history vmc bucket ls hf l hl
      exact ⟨⟨l, hbl, by rw [← hrid, hid]⟩, by rw [← hrid, hid]; exact hne⟩

lemma getWarfare_spec (params : WeightingParameters) (layers : List Layer)
    (current : Layer) (history : List String) (vmc : VoteMapUserConfig)
    (picks : ℕ → ℕ) (F : Finset String)
    (h : getWarfare params layers current history vmc picks = .ok F) :
    F.card ≤ vmc.num_warfare_options ∧
      ∀ x ∈ F, (∃ l ∈ layers, x = l.id) ∧ x ≠ current.id := by
  rw [getWarfare] at h
  have := bucket_selection_spec params layers current history vmc
    (dfWarfare layers) vmc.num_warfare_options picks F h
  refine ⟨this.1, fun x hx => ?_⟩
  obtain ⟨⟨l, hl, hxl⟩, hne⟩ := this.2 x hx
  exact ⟨⟨l, List.mem_of_mem_filter hl, hxl⟩, hne⟩

lemma getOffensive_spec (params : WeightingParameters) (layers : List Layer)
    (current : Layer) (history : List String) (vmc : VoteMapUserConfig)
    (picks : ℕ → ℕ) (F : Finset String)
    (h : getOffensive params layers current history vmc picks = .ok F) :
    F.card ≤ vmc.num_offensive_options ∧
      ∀ x ∈ F, (∃ l ∈ layers, x = l.id) ∧ x ≠ current.id := by
  rw [getOffensive] at h
  by_cases hc : current.game_mode = .offensive ∧ vmc.allow_consecutive_offensives = false
  · rw [if_pos hc] at h
    injection h with h
    subst h
    simp
  · rw [if_neg hc] at h
    have := bucket_selection_spec params layers current history vmc
      (dfOffensive layers) vmc.num_offensive_options picks F h
    refine ⟨this.1, fun x hx => ?_⟩
    obtain ⟨⟨l, hl, hxl⟩, hne⟩ := this.2 x hx
    exact ⟨⟨l, List.mem_of_mem_filter hl, hxl⟩, hne⟩

lemma getSkirmish_spec (params : WeightingParameters) (layers : List Layer)
    (current : Layer) (history : List String) (vmc : VoteMapUserConfig)
    (picks : ℕ → ℕ) (F : Finset String)
    (h : getSkirmish params layers current history vmc picks = .ok F) :
    F.card ≤ vmc.num_skirmish_control_options ∧
      ∀ x ∈ F, (∃ l ∈ layers, x = l.id) ∧ x ≠ current.id := by
  rw [getSkirmish] at h
  by_cases hc : current.game_mode ∈ skirmishModes ∧ vmc.allow_consecutive_skirmishes = false
  · rw [if_pos hc] at h
    injection h with h
    subst h
    simp
  · rw [if_neg hc] at h
    have := bucket_selection_spec params layers current history vmc
      (dfSkirmish layers) vmc.num_skirmish_control_options picks F h
    refine ⟨this.1, fun x hx => ?_⟩
    obtain ⟨⟨l, hl, hxl⟩, hne⟩ := this.2 x hx
    exact ⟨⟨l, List.mem_of_mem_filter hl, hxl⟩, hne⟩

/-! ## Claim C2 -/

/-- Claim C2: every selection the selector produces with counts (w, o, s) has at
most `w` warfare ids, at most `o` offensive ids and at most `s` skirmish ids;
every selected id is the id of a layer of the whitelist-filtered catalog given
to the selector; and no selected id equals the current layer's id. -/
theorem generateVotemapSelection_spec (params : WeightingParameters)
    (whitelist : List String) (allLayers : List Layer) (current : Layer)
    (history : List String) (vmc : VoteMapUserConfig)
    (picksW picksO picksS : ℕ → ℕ) (W O S : Finset String)
    (h : generateVotemapSelection params whitelist allLayers current history vmc
        picksW picksO picksS = .ok (W, O, S)) :
    W.card ≤ vmc.num_warfare_options ∧
    O.card ≤ vmc.num_offensive_options ∧
    S.card ≤ vmc.num_skirmish_control_options ∧
    ∀ x ∈ W ∪ O ∪ S,
      x ∈ (whitelistFilteredCatalog whitelist allLayers).map Layer.id ∧
        x ≠ current.id := by
  rw [generateVotemapSelection, getSelection] at h
  cases hW : getWarfare params (whitelistFilteredCatalog whitelist allLayers)
      current history vmc picksW with
  | error e => rw [hW] at h; cases h
  | ok w =>
      rw [hW] at h
      dsimp only at h
      cases hO : getOffensive params (whitelistFilteredCatalog whitelist allLayers)
          current history vmc picksO with
      | error e => rw [hO] at h; cases h
      | ok o =>
          rw [hO] at h
          dsimp only at h
          cases hS : getSkirmish params (whitelistFilteredCatalog whitelist allLayers)
              current history vmc picksS with
          | error e => rw [hS] at h; cases h
          | ok s =>
              rw [hS] at h
              dsimp only at h
              injection h with h
              injection h with hw h
              injection h with ho hs
              subst hw
              subst ho
              subst hs
              obtain ⟨hwc, hwm⟩ := getWarfare_spec _ _ _ _ _ _ _ hW
              obtain ⟨hoc, hom⟩ := getOffensive_spec _ _ _ _ _ _ _ hO
              obtain ⟨hsc, hsm⟩ := getSkirmish_spec _ _ _ _ _ _ _ hS
              refine ⟨hwc, hoc, hsc, fun x hx => ?_⟩
              rcases Finset.mem_union.mp hx with hx' | hxs
              · rcases Finset.mem_union.mp hx' with hxw | hxo
                · obtain ⟨⟨l, hl, hxl⟩, hne⟩ := hwm x hxw
                  exact ⟨List.mem_map.mpr ⟨l, hl, hxl.symm⟩, hne⟩
                · obtain ⟨⟨l, hl, hxl⟩, hne⟩ := hom x hxo
                  exact ⟨List.mem_map.mpr ⟨l, hl, hxl.symm⟩, hne⟩
              · obtain ⟨⟨l, hl, hxl⟩, hne⟩ := hsm x hxs
                exact ⟨List.mem_map.mpr ⟨l, hl, hxl.symm⟩, hne⟩

/-- Witness for C2: a two-layer whitelisted catalog with counts (1,1,1)
produces the selection `({m1_warfare}, ∅, ∅)`, which satisfies all the
bounds and exclusions. -/
theorem generateVotemapSelection_spec_witness :
    ({"m1_warfare"} : Finset String).card ≤ baseVmc.num_warfare_options ∧
    (∅ : Finset String).card ≤ baseVmc.num_offensive_options ∧
    (∅ : Finset String).card ≤ baseVmc.num_skirmish_control_options ∧
    ∀ x ∈ ({"m1_warfare"} : Finset String) ∪ ∅ ∪ ∅,
      x ∈ (whitelistFilteredCatalog ["mc_warfare", "m1_warfare"]
            [wCurrent, wLayer1]).map Layer.id ∧
        x ≠ wCurrent.id :=
  generateVotemapSelection_spec wParams ["mc_warfare", "m1_warfare"]
    [wCurrent, wLayer1] wCurrent [] baseVmc (fun _ => 0) (fun _ => 0) (fun _ => 0)
    {"m1_warfare"} ∅ ∅ (by
      have h1 : whitelistFilteredCatalog ["mc_warfare", "m1_warfare"]
          [wCurrent, wLayer1] = [wCurrent, wLayer1] := by decide
      have h3 : filterBucketLayers [wCurrent, wLayer1] wCurrent [] baseVmc
          (dfWarfare [wCurrent, wLayer1]) = .ok [wLayer1] := by decide
      have hrow : buildSelectorRows wParams [wLayer1] =
          [{ id := "m1_warfare", map_id := "m1", attackers := none,
             environment := .day, map_weight := 100, map_repeat_decay := 1/2,
             map_group := "Top", environment_weight := 100,
             environment_repeat_decay := 1/2, environment_category := "Day",
             map_instance_count := 1, environment_instance_count := 1,
             map_count_normalization_factor := 1,
             environment_count_normalization_factor := 1, map_repeat_score := 1,
             environment_repeat_score := 1 }] := by
        simp [buildSelectorRows, matchingMapGroups, matchingEnvironmentGroups,
          wParams, wLayer1, sampleMap, Environment.toStr]
      have h5 : selectLayers (buildSelectorRows wParams [wLayer1]) 1 (fun _ => 0) =
          {"m1_warfare"} := by
        rw [hrow]
        rw [selectLayers]
        rw [selectStep]
        rw [if_neg (by norm_num [overallWeighting])]
        simp [selectLayers]
      have hW : getWarfare wParams [wCurrent, wLayer1] wCurrent [] baseVmc
          (fun _ => 0) = .ok {"m1_warfare"} := by
        rw [getWarfare, prepareDataframe, h3]
        dsimp only [Except.map]
        rw [show baseVmc.num_warfare_options = 1 from rfl, h5]
      have hO : getOffensive wParams [wCurrent, wLayer1] wCurrent [] baseVmc
          (fun _ => 0) = .ok ∅ := by decide
      have hS : getSkirmish wParams [wCurrent, wLayer1] wCurrent [] baseVmc
          (fun _ => 0) = .ok ∅ := by decide
      rw [generateVotemapSelection, h1, getSelection, hW, hO, hS])

/-! ## Claim C5 -/

/-- Claim C5 (code bug): with `allow_consecutive_offensives_opposite_sides` set and
a current layer attacked by the allies, `_prepare_dataframe` does not filter
by attacker side at all — `df[~df["attackers"] == current_side]` applies
unary `~` to the string-valued `attackers` column and raises `TypeError` for
any non-empty frame.  Neither a same-side layer (which the claim says is
excluded) nor an opposite-side layer (which the claim says is kept) survives:
the evaluation raises instead. -/
theorem opposite_sides_exclusion_raises_typeError :
    filterBucketLayers [c5Current, c5Opposite, c5SameSide] c5Current []
        c5Vmc [c5Opposite, c5SameSide] = .error .typeError ∧
    filterBucketLayers [c5Current, c5Opposite] c5Current [] c5Vmc
        [c5Opposite] = .error .typeError := by
  decide

/-! ## Claim C6 -/

/-- Counterexample to C6 as stated: the same-map exclusion also fires in the
**warfare** bucket.  With `consider_offensive_same_map` set (and the skirmish
flag clear), a warfare layer sharing its map with a recent-history entry is
removed from the warfare bucket — the source tests
`consider_offensive_same_map or consider_skirmishes_as_same_map` in the one
`_prepare_dataframe` used by every bucket (selector.py:145-150). -/
theorem sameMap_exclusion_warfare_counterexample :
    prepareDataframe wParams c6Layers wCurrent ["m1_warfare"] c6Vmc
        (dfWarfare c6Layers) = .ok [] ∧
    ¬ claimC6WarfareUnaffected wParams c6Layers wCurrent ["m1_warfare"] c6Vmc := by
  constructor
  · decide
  · unfold claimC6WarfareUnaffected
    decide

/-- Claim C6, amended: whenever **either** `consider_offensive_same_map` or
`consider_skirmishes_as_same_map` is set, the same-map exclusion applies to
whatever bucket is being prepared — warfare, offensive and skirmish alike —
removing exactly the layers whose `map.id` matches the map of one of the first
`number_last_played_to_exclude` history entries (on top of the standard
exclusions).  Stated for any bucket, under the side conditions that every
considered history id resolves in the catalog and the opposite-sides branch is
inactive (otherwise `_prepare_dataframe` raises instead). -/
theorem sameMap_exclusion_every_bucket (layers bucket : List Layer)
    (current : Layer) (history : List String) (vmc : VoteMapUserConfig)
    (hflag : vmc.consider_offensive_same_map = true ∨
      vmc.consider_skirmishes_as_same_map = true)
    (hres : (history.take vmc.number_last_played_to_exclude).all
        (fun x => (layersById layers x).isSome) = true)
    (hopp : vmc.allow_consecutive_offensives_opposite_sides = false ∨
      current.attackers = none) :
    ∃ ls, filterBucketLayers layers current history vmc bucket = .ok ls ∧
      ∀ l : Layer, l ∈ ls ↔
        l ∈ bucket ∧
        ((current.id :: history.take vmc.number_last_played_to_exclude).contains
            l.id = false) ∧
        (((history.take vmc.number_last_played_to_exclude).filterMap
            (fun x => (layersById layers x).map (fun l' => l'.map.id))).contains
            l.map.id = false) := by
  have hok : filterBucketLayers layers current history vmc bucket =
      .ok ((bucket.filter (fun l =>
          ! (current.id :: history.take vmc.number_last_played_to_exclude).contains
              l.id)).filter
        (fun l =>
          ! ((history.take vmc.number_last_played_to_exclude).filterMap
              (fun x => (layersById layers x).map (fun l' => l'.map.id))).contains
              l.map.id)) := by
    simp only [filterBucketLayers]
    rw [if_pos hflag, if_pos hres]
    dsimp only
    rcases hopp with hopp | hopp
    · cases hatt : current.attackers with
      | none => rfl
      | some side =>
          dsimp only
          rw [if_neg (by simp [hopp])]
    · rw [hopp]
  refine ⟨_, hok, fun l => ?_⟩
  simp [List.mem_filter, and_assoc, Bool.not_eq_true']
  tauto

/-- Witness for C6 (amended) on the **warfare** bucket of the counterexample
catalog: the characterization applies there as to any other bucket. -/
theorem sameMap_exclusion_every_bucket_witness :
    ∃ ls, filterBucketLayers c6Layers wCurrent ["m1_warfare"] c6Vmc
        (dfWarfare c6Layers) = .ok ls ∧
      ∀ l : Layer, l ∈ ls ↔
        l ∈ dfWarfare c6Layers ∧
        ((wCurrent.id ::
            (["m1_warfare"] : List String).take c6Vmc.number_last_played_to_exclude).contains
            l.id = false) ∧
        (((["m1_warfare"] : List String).take c6Vmc.number_last_played_to_exclude).filterMap
            (fun x => (layersById c6Layers x).map (fun l' => l'.map.id))).contains
            l.map.id = false :=
  sameMap_exclusion_every_bucket c6Layers (dfWarfare c6Layers) wCurrent
    ["m1_warfare"] c6Vmc (Or.inl (by decide)) (by decide) (Or.inl (by decide))

end Polebot
